import Mathlib

/-!
Verification of the automation execution engine of `py-auto-api`
(`src/backend/app`), as a shallow embedding in Lean 4.

The embedding follows the Python source:
* `app/schemas/__init__.py` — `TaskStatus`, `ActionType`, request models;
* `app/models/database.py` — the `Task` and `AutomationStep` rows;
* `app/services/browser_manager.py` — `BrowserManager.close_session`;
* `app/services/automation_service.py` — `AutomationService.create_step`,
  `AutomationService.execute_step` and its `_execute_*` helpers;
* `app/services/task_service.py` — `TaskService.get_task` /
  `TaskService.update_task_status`;
* `app/services/execution_service.py` — `ExecutionService.execute_task`;
* `app/api/routes/tasks.py` — the `POST /tasks/{id}/execute` route handler.

Machine integers are modelled as `Int`/`Nat` (Python integers are unbounded),
Python `None`-able fields as `Option`, Python dictionaries as association
lists with unique keys, and raised exceptions as `Except` values.  External
effects (browser calls, sleeps, log writes) are recorded in an explicit
effect trace; the browser library is an oracle parameter.  The orchestrator
`ExecutionService.execute_task` crashes deterministically at its browser
launch on every run that has steps (line 56 passes `None` to
`AutomationService.launch_browser`, which reads `config.browser_type` —
`AttributeError`), so its step loop, counter update and final-status
decision (lines 71-114) are unreachable; the run oracle keeps per-step
fields so that this independence can be observed.  Wall-clock timestamps and
the in-memory `active_executions` bookkeeping are not modelled: no verified
property mentions them.
-/

deriving instance DecidableEq for Except

namespace PyAutoApi

/-- `TaskStatus` enum from `app/schemas/__init__.py`. -/
inductive TaskStatus
  | pending
  | running
  | completed
  | failed
  | cancelled
deriving DecidableEq, Repr

/-- `ActionType` enum from `app/schemas/__init__.py` (ten action kinds). -/
inductive ActionType
  | click
  | type
  | scroll
  | wait
  | navigate
  | screenshot
  | hover
  | drag_drop
  | select
  | upload
deriving DecidableEq, Repr

/-- Step parameter map (`parameters` JSON column): association list with the
numeric values the `wait` action reads.  Python dictionaries have unique
keys; lookup takes the first (hence only) binding. -/
abbrev Params := List (String × Int)

/-- `AutomationStep` row from `app/models/database.py`. -/
structure AutomationStep where
  id : Nat
  task_id : Nat
  step_name : String
  step_order : Int
  action_type : ActionType
  target_selector : Option String
  target_text : Option String
  target_url : Option String
  parameters : Option Params
  wait_time : Int
  timeout : Int
deriving DecidableEq, Repr

/-- `Task` row from `app/models/database.py`, restricted to the fields the
verified claims mention (timestamps omitted). -/
structure Task where
  id : Nat
  url : Option String
  status : TaskStatus
  error_message : Option String
  execution_count : Int
  success_count : Int
  failure_count : Int
deriving DecidableEq, Repr

/-- The record store: the `tasks` and `automation_steps` tables. -/
structure DB where
  tasks : List Task
  steps : List AutomationStep
deriving Repr

/-- Python truthiness of an optional string (`if not step.target_selector`):
`None` and the empty string are falsy. -/
def pyTruthyStr : Option String → Bool
  | none => false
  | some s => !(s == "")

/-- Python truthiness of an optional parameter dictionary
(`if step.parameters`): `None` and the empty dictionary are falsy. -/
def pyTruthyParams : Option Params → Bool
  | none => false
  | some ps => !ps.isEmpty

/-! ## Browser Session Registry (`app/services/browser_manager.py`) -/

/-- One handle-closing call issued by `BrowserManager.close_session`. -/
inductive CloseEvent
  | page
  | context
  | browser
deriving DecidableEq, Repr

/-- `BrowserManager.close_session`: on an unknown id return `False` and leave
the registry untouched; on a known id close the page, the context and the
browser (in that order), delete the registry entry and return `True`.  The
registry `active_browsers` is a dictionary keyed by session id, modelled as
the list of its keys; deletion removes exactly the matching key.  The
returned event list records the closing calls issued. -/
def close_session (active : List String) (session_id : String) :
    Bool × List String × List CloseEvent :=
  if session_id ∈ active then
    (true, active.filter (fun s => !(s == session_id)),
      [CloseEvent.page, CloseEvent.context, CloseEvent.browser])
  else
    (false, active, [])

/-! ## Step creation (`AutomationService.create_step`) -/

/-- `AutomationStepCreate` request model from `app/schemas/__init__.py`. -/
structure AutomationStepCreate where
  task_id : Nat
  step_name : String
  step_order : Int
  action_type : ActionType
  target_selector : Option String
  target_text : Option String
  target_url : Option String
  parameters : Option Params
  wait_time : Int
  timeout : Int
deriving DecidableEq, Repr

/-- `AutomationService.create_step`: count the steps already stored for the
target task; if the requested `step_order` is negative replace it by that
count, otherwise keep it; then insert the new row.  `next_id` stands for the
primary key the database assigns. -/
def create_step (db : DB) (next_id : Nat) (sd : AutomationStepCreate) :
    DB × AutomationStep :=
  let existing_steps := (db.steps.filter (fun s => s.task_id == sd.task_id)).length
  let order := if sd.step_order < 0 then (existing_steps : Int) else sd.step_order
  let step : AutomationStep :=
    { id := next_id
      task_id := sd.task_id
      step_name := sd.step_name
      step_order := order
      action_type := sd.action_type
      target_selector := sd.target_selector
      target_text := sd.target_text
      target_url := sd.target_url
      parameters := sd.parameters
      wait_time := sd.wait_time
      timeout := sd.timeout }
  ({ db with steps := db.steps ++ [step] }, step)

/-! ## Step Executor (`AutomationService.execute_step` and helpers) -/

/-- Errors raised during step execution (`ValueError` messages in the Python
source), classified by the taxonomy of spec §7. -/
inductive StepError
  | MissingParameter (msg : String)
  | UnsupportedAction (a : ActionType)
  | ActionFailed (msg : String)
deriving DecidableEq, Repr

/-- The result dictionary returned by a successful `_execute_*` helper
(`action` and `success` keys; extra keys are visible in the effect trace). -/
structure StepResult where
  action : String
  success : Bool
deriving DecidableEq, Repr

/-- Externally visible effects of step execution, in program order.  Sleep
durations are in seconds (rationals, since the post-step sleep divides the
millisecond `wait_time` by 1000). -/
inductive Effect
  | log (level : String) (msg : String)
  | locate (selector : String) (timeout : Int)
  | clickOn (selector : String)
  | fillText (selector : String) (text : String)
  | scrollBy
  | sleep (seconds : Rat)
  | gotoUrl (url : String)
  | screenshotTaken
deriving DecidableEq, Repr

/-- Oracle for the browser-control library (a `BrowserWrapper` bound to a
live session).  `find_element` takes the selector and the timeout in seconds
and reports whether the element was found; `goto` reports whether navigation
succeeded; `screenshot_len` is the byte length of a captured screenshot. -/
structure Browser where
  find_element : String → Int → Except String Unit
  goto : String → Except String Unit
  screenshot_len : Nat

/-- `AutomationService._execute_click`: requires a (truthy) target selector,
locates the element — `browser.find_element(step.target_selector)` with the
wrapper's default timeout of 30 seconds, the step's own `timeout` field is
not passed — and clicks it. -/
def execute_click (env : Browser) (step : AutomationStep) :
    Except StepError StepResult × List Effect :=
  if !(pyTruthyStr step.target_selector) then
    (Except.error (StepError.MissingParameter "点击操作需要指定目标选择器"), [])
  else
    let sel := step.target_selector.getD ""
    match env.find_element sel 30 with
    | Except.error msg =>
        (Except.error (StepError.ActionFailed msg), [Effect.locate sel 30])
    | Except.ok _ =>
        (Except.ok { action := "click", success := true },
          [Effect.locate sel 30, Effect.clickOn sel])

/-- `AutomationService._execute_type`: requires a selector and a text, locates
the element with the default 30-second timeout and fills the text. -/
def execute_type (env : Browser) (step : AutomationStep) :
    Except StepError StepResult × List Effect :=
  if !(pyTruthyStr step.target_selector) then
    (Except.error (StepError.MissingParameter "输入操作需要指定目标选择器"), [])
  else if !(pyTruthyStr step.target_text) then
    (Except.error (StepError.MissingParameter "输入操作需要指定输入文本"), [])
  else
    let sel := step.target_selector.getD ""
    let txt := step.target_text.getD ""
    match env.find_element sel 30 with
    | Except.error msg =>
        (Except.error (StepError.ActionFailed msg), [Effect.locate sel 30])
    | Except.ok _ =>
        (Except.ok { action := "type", success := true },
          [Effect.locate sel 30, Effect.fillText sel txt])

/-- `AutomationService._execute_scroll`: evaluates a forward scroll by one
viewport height; no required parameters. -/
def execute_scroll (_env : Browser) (_step : AutomationStep) :
    Except StepError StepResult × List Effect :=
  (Except.ok { action := "scroll", success := true }, [Effect.scrollBy])

/-- Duration chosen by `AutomationService._execute_wait`:
`step.parameters.get("wait_time", step.timeout) if step.parameters else
step.timeout` — the parameter map's `wait_time` entry when the map is truthy
and has one, the step's `timeout` field otherwise, in seconds. -/
def code_wait_duration (step : AutomationStep) : Int :=
  if pyTruthyParams step.parameters then
    ((step.parameters.getD []).lookup "wait_time").getD step.timeout
  else
    step.timeout

/-- `AutomationService._execute_wait`: sleeps for `code_wait_duration`
seconds; never fails. -/
def execute_wait (_env : Browser) (step : AutomationStep) :
    Except StepError StepResult × List Effect :=
  (Except.ok { action := "wait", success := true },
    [Effect.sleep ((code_wait_duration step : Int) : Rat)])

/-- `AutomationService._execute_navigate`: requires a target URL and navigates
to it; a navigation fault surfaces as an error. -/
def execute_navigate (env : Browser) (step : AutomationStep) :
    Except StepError StepResult × List Effect :=
  if !(pyTruthyStr step.target_url) then
    (Except.error (StepError.MissingParameter "导航操作需要指定URL"), [])
  else
    let url := step.target_url.getD ""
    match env.goto url with
    | Except.error msg =>
        (Except.error (StepError.ActionFailed msg), [Effect.gotoUrl url])
    | Except.ok _ =>
        (Except.ok { action := "navigate", success := true }, [Effect.gotoUrl url])

/-- `AutomationService._execute_screenshot`: captures the viewport and
returns; the byte length comes from the browser oracle. -/
def execute_screenshot (_env : Browser) (_step : AutomationStep) :
    Except StepError StepResult × List Effect :=
  (Except.ok { action := "screenshot", success := true }, [Effect.screenshotTaken])

/-- Dispatch table of `AutomationService.execute_step`: `if/elif` chain over
the action kind; every kind without a branch (hover, drag_drop, select,
upload) falls into the final `else`, which raises the unsupported-action
`ValueError`. -/
def dispatch (env : Browser) (step : AutomationStep) :
    Except StepError StepResult × List Effect :=
  match step.action_type with
  | ActionType.click => execute_click env step
  | ActionType.type => execute_type env step
  | ActionType.scroll => execute_scroll env step
  | ActionType.wait => execute_wait env step
  | ActionType.navigate => execute_navigate env step
  | ActionType.screenshot => execute_screenshot env step
  | a => (Except.error (StepError.UnsupportedAction a), [])

/-- `AutomationService.execute_step`: log the start, dispatch on the action
kind; on success log the success and, when the step declares
`wait_time > 0` (milliseconds), sleep for `wait_time / 1000` seconds before
returning; on failure log the error and re-raise — no post-step sleep. -/
def execute_step (env : Browser) (step : AutomationStep) :
    Except StepError StepResult × List Effect :=
  let start_log := Effect.log "INFO" ("开始执行步骤: " ++ step.step_name)
  match dispatch env step with
  | (Except.ok res, effs) =>
      let ok_log := Effect.log "INFO" ("步骤执行成功: " ++ step.step_name)
      let post : List Effect :=
        if 0 < step.wait_time then
          [Effect.sleep (((step.wait_time : Int) : Rat) / 1000)]
        else []
      (Except.ok res, (start_log :: (effs ++ [ok_log])) ++ post)
  | (Except.error e, effs) =>
      let err_log := Effect.log "ERROR" ("步骤执行失败: " ++ step.step_name)
      (Except.error e, start_log :: (effs ++ [err_log]))

/-! ## Task store operations (`app/services/task_service.py`) -/

/-- `TaskService.get_task`: first row whose id matches.  The Python method
wraps the row in `TaskResponse.from_orm(task)`, i.e. the caller receives a
detached copy of the row's fields — mutating the returned object does not
touch the stored row.  Here both the row and the copy are the `Task` value;
the orchestrator model below keeps the copy separate from the store. -/
def get_task (db : DB) (task_id : Nat) : Option Task :=
  db.tasks.find? (fun t => t.id == task_id)

/-- Field update performed by `TaskService.update_task_status` on the matching
row: set the status; overwrite `error_message` only when the new message is
truthy (`if error_message:`), keep the old one otherwise.  Timestamps are not
modelled. -/
def apply_status (t : Task) (status : TaskStatus) (error_message : Option String) :
    Task :=
  { t with
    status := status
    error_message :=
      if pyTruthyStr error_message then error_message else t.error_message }

/-- `TaskService.update_task_status`: look the row up by id and commit the
status/error update; a missing id is a silent no-op. -/
def update_task_status (db : DB) (task_id : Nat) (status : TaskStatus)
    (error_message : Option String) : DB :=
  { db with
    tasks := db.tasks.map (fun t =>
      if t.id == task_id then apply_status t status error_message else t) }

/-! ## Task Orchestrator (`ExecutionService.execute_task`) -/

/-- Stable insertion of a step into a list sorted by ascending `step_order`. -/
def insert_by_order (s : AutomationStep) :
    List AutomationStep → List AutomationStep
  | [] => [s]
  | t :: ts =>
      if s.step_order < t.step_order then s :: t :: ts
      else t :: insert_by_order s ts

/-- Stable sort by ascending `step_order` (the SQL `ORDER BY step_order`). -/
def sort_by_order : List AutomationStep → List AutomationStep
  | [] => []
  | s :: ss => insert_by_order s (sort_by_order ss)

/-- The step snapshot the orchestrator loads: rows of the task, ordered by
`step_order`. -/
def steps_for (db : DB) (task_id : Nat) : List AutomationStep :=
  sort_by_order (db.steps.filter (fun s => s.task_id == task_id))

/-- Environment oracle for one orchestrator run.
`fresh_session` — the session id the browser-manager launch generates;
`step_succeeds i` / `live_status i` — the per-step environment the loop of
`execution_service.py` lines 71-95 would consult (whether the `i`-th step
executes without raising; the task status the boundary re-check before the
`i`-th step would observe).  The launch crash in `execute_task` below makes
every run's outcome independent of these two oracles; they are kept so that
independence is visible in the theorems. -/
structure RunEnv where
  step_succeeds : Nat → Bool
  live_status : Nat → TaskStatus
  fresh_session : String

/-- The text of the `AttributeError` that `AutomationService.launch_browser`
raises at `automation_service.py:364`: `ExecutionService.execute_task` passes
`config = None`, and the wrapper evaluates `config.browser_type`.  Python
renders the message with single quotes around `NoneType` and `browser_type`;
the quote characters are omitted here. -/
def attribute_error_text : String :=
  "NoneType object has no attribute browser_type"

/-- Outcome of one `ExecutionService.execute_task` run: the record store and
session registry after the run, whether a browser session was opened, the
detached `TaskResponse` copy lines 97-100 would increment (never created:
those lines are unreachable), and this run's success/failure/attempted step
tallies (always zero: the step loop is unreachable). -/
structure RunResult where
  db : DB
  registry : List String
  session_opened : Bool
  response_copy : Option Task
  succ : Nat
  fail : Nat
  attempted : Nat
deriving Repr

/-- `ExecutionService.execute_task`:

1. set the task status to `running` (line 42);
2. load the step snapshot; when it is empty, set status `failed` with the
   no-steps message and return — no browser session is opened (lines 49-53);
3. otherwise, line 56 calls `self.automation_service.launch_browser(None)`.
   `BrowserManager.launch_browser` tolerates the `None` config (its
   `if config:` guard) and registers a fresh session id, but back in
   `AutomationService.launch_browser` the construction of the
   `BrowserSession` row evaluates `config.browser_type` on `None`
   (`automation_service.py:364`) and raises `AttributeError` on every call;
   the wrapper's `except` re-raises it.  The raise happens before the inner
   `try` of `execute_task` is entered, so the `finally` never runs: the
   session is never closed (the fresh id stays registered — a leak) and the
   outer handler persists status `failed` with the exception note
   (lines 126-134).

The task fetch, the step loop with its boundary cancellation re-check
(lines 61-95), the counter update on the detached copy (lines 97-100) and
the final-status decision (lines 102-114) are therefore unreachable: no
step is ever dispatched, no detached copy is created, and the run's outcome
does not depend on `env.step_succeeds` or `env.live_status`. -/
def execute_task (env : RunEnv) (db : DB) (registry : List String)
    (task_id : Nat) : RunResult :=
  let db1 := update_task_status db task_id TaskStatus.running none
  let steps := steps_for db1 task_id
  if steps.isEmpty then
    { db := update_task_status db1 task_id TaskStatus.failed
        (some "任务没有配置自动化步骤")
      registry := registry
      session_opened := false
      response_copy := none
      succ := 0, fail := 0, attempted := 0 }
  else
    { db := update_task_status db1 task_id TaskStatus.failed
        (some ("任务执行异常: " ++ attribute_error_text))
      registry := registry ++ [env.fresh_session]
      session_opened := true
      response_copy := none
      succ := 0, fail := 0, attempted := 0 }

/-! ## Execute route (`app/api/routes/tasks.py`, `POST /tasks/{id}/execute`) -/

/-- HTTP outcome of the execute-task route. -/
inductive ExecuteRouteResult
  | notFound
  | alreadyRunning
  | started
deriving DecidableEq, Repr

/-- The `execute_task` route handler: 404 when the task does not exist;
400 (`TaskAlreadyRunning`) when its current status is `running`; otherwise
enqueue one background orchestrator run.  The boolean records whether a run
was started. -/
def execute_task_route (db : DB) (task_id : Nat) : ExecuteRouteResult × Bool :=
  match get_task db task_id with
  | none => (ExecuteRouteResult.notFound, false)
  | some t =>
      if t.status = TaskStatus.running then (ExecuteRouteResult.alreadyRunning, false)
      else (ExecuteRouteResult.started, true)

/-! ## Spec-side definitions (for refinement statements) -/

/-- The `wait` duration as the spec sentence states it: `parameters.wait_time`
when that key is present in the step's parameter map, otherwise the step's
`timeout` field, in seconds.  Compared below with `code_wait_duration`, the
expression the source computes. -/
def spec_wait_duration (step : AutomationStep) : Int :=
  match step.parameters with
  | some ps =>
      match ps.lookup "wait_time" with
      | some v => v
      | none => step.timeout
  | none => step.timeout

/-- Whether an effect is a suspension. -/
def is_sleep : Effect → Bool
  | Effect.sleep _ => true
  | _ => false

/-! ## Concrete fixtures (used by witnesses and counterexamples) -/

/-- A browser oracle on which every element lookup and navigation succeeds. -/
def ok_browser : Browser :=
  { find_element := fun _ _ => Except.ok ()
    goto := fun _ => Except.ok ()
    screenshot_len := 7 }

/-- A click step whose per-step `timeout` field is 5 seconds and which
declares no post-step wait. -/
def click_step : AutomationStep :=
  { id := 11, task_id := 1, step_name := "press go", step_order := 1
    action_type := ActionType.click
    target_selector := some "#go", target_text := none, target_url := none
    parameters := none, wait_time := 0, timeout := 5 }

/-- A hover step with a target selector present. -/
def hover_step : AutomationStep :=
  { id := 12, task_id := 1, step_name := "hover menu", step_order := 2
    action_type := ActionType.hover
    target_selector := some "#menu", target_text := none, target_url := none
    parameters := none, wait_time := 0, timeout := 30 }

/-- A click step declaring a 500 ms post-step wait. -/
def click_wait_step : AutomationStep :=
  { click_step with id := 13, wait_time := 500 }

/-- A wait step whose parameter map carries `wait_time = 2` while the step's
`timeout` field is 30. -/
def wait_param_step : AutomationStep :=
  { id := 14, task_id := 1, step_name := "pause", step_order := 3
    action_type := ActionType.wait
    target_selector := none, target_text := none, target_url := none
    parameters := some [("wait_time", 2)], wait_time := 0, timeout := 30 }

/-- A navigate step used as the first step of the demo task. -/
def nav_step : AutomationStep :=
  { id := 10, task_id := 1, step_name := "open page", step_order := 0
    action_type := ActionType.navigate
    target_selector := none, target_text := none
    target_url := some "http://example.com"
    parameters := none, wait_time := 0, timeout := 30 }

/-- A pending task with zeroed counters. -/
def demo_task : Task :=
  { id := 1, url := some "http://example.com", status := TaskStatus.pending
    error_message := none
    execution_count := 0, success_count := 0, failure_count := 0 }

/-- A store holding the demo task with a two-step snapshot. -/
def demo_db : DB := { tasks := [demo_task], steps := [nav_step, click_step] }

/-- A store holding the demo task with no steps at all. -/
def demo_db_empty : DB := { tasks := [demo_task], steps := [] }

/-- The demo task already running, and a store holding it. -/
def running_task : Task := { demo_task with status := TaskStatus.running }

/-- Store for the already-running scenario. -/
def db_running : DB := { tasks := [running_task], steps := [nav_step, click_step] }

/-- Run oracle: every step succeeds, no external writes. -/
def env_all_ok : RunEnv :=
  { step_succeeds := fun _ => true
    live_status := fun _ => TaskStatus.running
    fresh_session := "sess-1" }

/-- Run oracle: steps succeed, but the task is observed `cancelled` at the
boundary before step index 1. -/
def env_cancel_at_one : RunEnv :=
  { step_succeeds := fun _ => true
    live_status := fun i => if i == 0 then TaskStatus.running else TaskStatus.cancelled
    fresh_session := "sess-1" }

/-- A step-creation request with a negative `step_order`. -/
def neg_order_create : AutomationStepCreate :=
  { task_id := 1, step_name := "appended", step_order := -1
    action_type := ActionType.scroll
    target_selector := none, target_text := none, target_url := none
    parameters := none, wait_time := 0, timeout := 30 }

/-! ## Helper lemmas -/

theorem apply_status_id (t : Task) (st : TaskStatus) (e : Option String) :
    (apply_status t st e).id = t.id := rfl

theorem apply_status_status (t : Task) (st : TaskStatus) (e : Option String) :
    (apply_status t st e).status = st := rfl

/-- `apply_status` stores a truthy error message. -/
theorem apply_status_error_truthy (t : Task) (st : TaskStatus) (msg : String)
    (h : pyTruthyStr (some msg) = true) :
    (apply_status t st (some msg)).error_message = some msg := by
  unfold apply_status
  dsimp only
  rw [if_pos h]

theorem apply_status_counters (t : Task) (st : TaskStatus) (e : Option String) :
    (apply_status t st e).execution_count = t.execution_count ∧
    (apply_status t st e).success_count = t.success_count ∧
    (apply_status t st e).failure_count = t.failure_count :=
  ⟨rfl, rfl, rfl⟩

/-- `update_task_status` rewrites exactly the matching row: reading the task
back yields the updated copy of what was there before. -/
theorem get_task_update (db : DB) (task_id : Nat) (st : TaskStatus)
    (e : Option String) :
    get_task (update_task_status db task_id st e) task_id =
      (get_task db task_id).map (fun t => apply_status t st e) := by
  rcases db with ⟨tasks, steps⟩
  unfold get_task update_task_status
  simp only
  induction tasks with
  | nil => rfl
  | cons t ts ih =>
      rw [List.map_cons]
      by_cases h : (t.id == task_id) = true
      · have hft : (if (t.id == task_id) = true then apply_status t st e else t)
            = apply_status t st e := if_pos h
        rw [hft, List.find?_cons, List.find?_cons]
        simp only [apply_status_id, h, if_true, Option.map_some]
        rfl
      · have hfalse : (t.id == task_id) = false := by
          cases hb : (t.id == task_id) with
          | true => exact absurd hb h
          | false => rfl
        have hft : (if (t.id == task_id) = true then apply_status t st e else t)
            = t := if_neg h
        rw [hft, List.find?_cons, List.find?_cons]
        simp only [hfalse, Bool.false_eq_true, if_false]
        exact ih

/-- `update_task_status` leaves the step table untouched. -/
theorem steps_for_update (db : DB) (task_id : Nat) (st : TaskStatus)
    (e : Option String) (tid : Nat) :
    steps_for (update_task_status db task_id st e) tid = steps_for db tid := rfl

/-- Characterization of `execute_task` on every input with a non-empty step
snapshot: the run marks the task `running`, registers the fresh session,
crashes at `config.browser_type`, and persists `failed` with the exception
note — the session stays in the registry, no step is dispatched, and no
detached copy is created, regardless of the step and live-status oracles. -/
theorem execute_task_with_steps_crashes (env : RunEnv) (db : DB)
    (reg : List String) (task_id : Nat) (hs : steps_for db task_id ≠ []) :
    execute_task env db reg task_id =
      { db := update_task_status (update_task_status db task_id TaskStatus.running none)
          task_id TaskStatus.failed
          (some ("任务执行异常: " ++ attribute_error_text))
        registry := reg ++ [env.fresh_session]
        session_opened := true
        response_copy := none
        succ := 0, fail := 0, attempted := 0 } := by
  have hempty : (steps_for db task_id).isEmpty = false := by
    cases h : steps_for db task_id with
    | nil => exact absurd h hs
    | cons a l => rfl
  simp only [execute_task, steps_for_update, hempty, Bool.false_eq_true,
    if_false]

/-- Characterization of `execute_task` when the task has no configured
steps. -/
theorem execute_task_no_steps (env : RunEnv) (db : DB) (reg : List String)
    (task_id : Nat) (hs : steps_for db task_id = []) :
    execute_task env db reg task_id =
      { db := update_task_status (update_task_status db task_id TaskStatus.running none)
          task_id TaskStatus.failed (some "任务没有配置自动化步骤")
        registry := reg
        session_opened := false
        response_copy := none
        succ := 0, fail := 0, attempted := 0 } := by
  have hempty : (steps_for db task_id).isEmpty = true := by rw [hs]; rfl
  simp only [execute_task, steps_for_update, hempty, if_true]

/-- The duration the code computes for a `wait` step coincides with the
duration the spec sentence describes. -/
theorem wait_duration_agrees (step : AutomationStep) :
    code_wait_duration step = spec_wait_duration step := by
  unfold code_wait_duration spec_wait_duration pyTruthyParams
  cases hp : step.parameters with
  | none => rfl
  | some ps =>
      cases ps with
      | nil => rfl
      | cons q qs =>
          cases hl : (q :: qs).lookup "wait_time" <;> simp [hl]

/-- `_execute_click` never sleeps on its failure path. -/
theorem execute_click_error_effects (env : Browser) (step : AutomationStep)
    (e : StepError) (effs : List Effect)
    (h : execute_click env step = (Except.error e, effs)) :
    effs.filter is_sleep = [] := by
  unfold execute_click at h
  split at h
  · cases h; rfl
  · dsimp only at h
    split at h
    · cases h; rfl
    · cases h

/-- `_execute_type` never sleeps on its failure path. -/
theorem execute_type_error_effects (env : Browser) (step : AutomationStep)
    (e : StepError) (effs : List Effect)
    (h : execute_type env step = (Except.error e, effs)) :
    effs.filter is_sleep = [] := by
  unfold execute_type at h
  split at h
  · cases h; rfl
  · split at h
    · cases h; rfl
    · dsimp only at h
      split at h
      · cases h; rfl
      · cases h

/-- `_execute_navigate` never sleeps on its failure path. -/
theorem execute_navigate_error_effects (env : Browser) (step : AutomationStep)
    (e : StepError) (effs : List Effect)
    (h : execute_navigate env step = (Except.error e, effs)) :
    effs.filter is_sleep = [] := by
  unfold execute_navigate at h
  split at h
  · cases h; rfl
  · dsimp only at h
    split at h
    · cases h; rfl
    · cases h

/-- No dispatch branch sleeps on its failure path (the `wait` branch never
fails). -/
theorem dispatch_error_no_sleep (env : Browser) (step : AutomationStep)
    (e : StepError) (effs : List Effect)
    (h : dispatch env step = (Except.error e, effs)) :
    effs.filter is_sleep = [] := by
  unfold dispatch at h
  cases hat : step.action_type <;> rw [hat] at h
  case click => exact execute_click_error_effects env step e effs h
  case type => exact execute_type_error_effects env step e effs h
  case scroll => cases h
  case wait => cases h
  case navigate => exact execute_navigate_error_effects env step e effs h
  case screenshot => cases h
  case hover => cases h; rfl
  case drag_drop => cases h; rfl
  case select => cases h; rfl
  case upload => cases h; rfl

/-! ## Claim theorems -/

/-- Claim C9: for every session id, `close_session` returns false and leaves
the registry unchanged when the id is not registered (a double close of an
already-removed id returns false), and on a registered id it closes page,
context and browser in that order and removes the entry from the registry. -/
theorem close_session_contract (active : List String) (session_id : String) :
    (session_id ∉ active → close_session active session_id = (false, active, [])) ∧
    (session_id ∈ active →
      (close_session active session_id).1 = true ∧
      (close_session active session_id).2.2 =
        [CloseEvent.page, CloseEvent.context, CloseEvent.browser] ∧
      session_id ∉ (close_session active session_id).2.1 ∧
      (close_session (close_session active session_id).2.1 session_id).1 = false) := by
  have hnm : session_id ∉ active.filter (fun s => !(s == session_id)) := by
    intro hmem
    rcases List.mem_filter.mp hmem with ⟨-, hp⟩
    simp at hp
  constructor
  · intro h
    unfold close_session
    rw [if_neg h]
  · intro h
    unfold close_session
    rw [if_pos h]
    refine ⟨rfl, rfl, hnm, ?_⟩
    rw [if_neg hnm]

/-- Witness for C9 at a concrete registry: closing `"z"` on `["a"]` is a
rejected no-op; closing `"a"` on `["a", "b"]` succeeds, closes the three
handles in order, removes the entry, and a second close returns false. -/
theorem close_session_contract_witness :
    close_session ["a"] "z" = (false, ["a"], []) ∧
    ((close_session ["a", "b"] "a").1 = true ∧
      (close_session ["a", "b"] "a").2.2 =
        [CloseEvent.page, CloseEvent.context, CloseEvent.browser] ∧
      "a" ∉ (close_session ["a", "b"] "a").2.1 ∧
      (close_session (close_session ["a", "b"] "a").2.1 "a").1 = false) :=
  ⟨(close_session_contract ["a"] "z").1 (by decide),
    (close_session_contract ["a", "b"] "a").2 (by decide)⟩

/-- Claim C10 (implicit): a `create_step` request with a negative
`step_order` stores the step with `step_order` equal to the number of steps
already existing for that task; a non-negative `step_order` is stored as
given; the new row is appended to the step table. -/
theorem create_step_order_contract (db : DB) (next_id : Nat)
    (sd : AutomationStepCreate) :
    (sd.step_order < 0 →
      (create_step db next_id sd).2.step_order =
        ((db.steps.filter (fun s => s.task_id == sd.task_id)).length : Int)) ∧
    (0 ≤ sd.step_order →
      (create_step db next_id sd).2.step_order = sd.step_order) ∧
    (create_step db next_id sd).1.steps.getLast? =
      some (create_step db next_id sd).2 := by
  refine ⟨?_, ?_, ?_⟩
  · intro h
    unfold create_step
    dsimp only
    rw [if_pos h]
  · intro h
    unfold create_step
    dsimp only
    rw [if_neg (by omega)]
  · unfold create_step
    dsimp only
    rw [List.getLast?_concat]

/-- Witness for C10: on the two-step demo store, a request with
`step_order = -1` for task 1 is stored with `step_order = 2`, the number of
steps already present for that task. -/
theorem create_step_order_contract_witness :
    neg_order_create.step_order < 0 ∧
    (create_step demo_db 99 neg_order_create).2.step_order =
      ((demo_db.steps.filter
        (fun s => s.task_id == neg_order_create.task_id)).length : Int) :=
  ⟨by decide,
    (create_step_order_contract demo_db 99 neg_order_create).1 (by decide)⟩

/-- Claim C4: a request to start execution of a task whose current status is
`running` is rejected (`TaskAlreadyRunning`, HTTP 400) and no second
orchestrator run is enqueued for it. -/
theorem execute_route_rejects_running (db : DB) (task_id : Nat) (t : Task)
    (ht : get_task db task_id = some t) (hr : t.status = TaskStatus.running) :
    execute_task_route db task_id = (ExecuteRouteResult.alreadyRunning, false) := by
  unfold execute_task_route
  rw [ht]
  dsimp only
  rw [if_pos hr]

/-- Witness for C4 on a store whose task 1 is `running`: the execute request
is rejected and no run is started. -/
theorem execute_route_rejects_running_witness :
    get_task db_running 1 = some running_task ∧
    running_task.status = TaskStatus.running ∧
    execute_task_route db_running 1 = (ExecuteRouteResult.alreadyRunning, false) :=
  ⟨by decide, by decide,
    execute_route_rejects_running db_running 1 running_task (by decide) (by decide)⟩

/-- Claim C3: on a task with zero configured steps, `execute_task` persists
final status `failed` with the no-steps-configured reason and returns
without opening a browser session; the session registry is unchanged. -/
theorem execute_task_without_steps (env : RunEnv) (db : DB) (reg : List String)
    (task_id : Nat) (t0 : Task) (ht : get_task db task_id = some t0)
    (hs : steps_for db task_id = []) :
    (execute_task env db reg task_id).registry = reg ∧
    (execute_task env db reg task_id).session_opened = false ∧
    ∃ t, get_task (execute_task env db reg task_id).db task_id = some t ∧
      t.status = TaskStatus.failed ∧
      t.error_message = some "任务没有配置自动化步骤" := by
  rw [execute_task_no_steps env db reg task_id hs]
  refine ⟨rfl, rfl, ?_⟩
  refine ⟨apply_status (apply_status t0 TaskStatus.running none) TaskStatus.failed
    (some "任务没有配置自动化步骤"), ?_, rfl, ?_⟩
  · dsimp only
    rw [get_task_update, get_task_update, ht]
    rfl
  · exact apply_status_error_truthy _ _ _ (by decide)

/-- Witness for C3 on the step-less demo store: the registry stays `["keep"]`,
no session opens, and task 1 ends `failed` with the no-steps reason. -/
theorem execute_task_without_steps_witness :
    get_task demo_db_empty 1 = some demo_task ∧
    steps_for demo_db_empty 1 = [] ∧
    ((execute_task env_all_ok demo_db_empty ["keep"] 1).registry = ["keep"] ∧
      (execute_task env_all_ok demo_db_empty ["keep"] 1).session_opened = false ∧
      ∃ t, get_task (execute_task env_all_ok demo_db_empty ["keep"] 1).db 1 = some t ∧
        t.status = TaskStatus.failed ∧
        t.error_message = some "任务没有配置自动化步骤") :=
  ⟨by decide, by decide,
    execute_task_without_steps env_all_ok demo_db_empty ["keep"] 1 demo_task
      (by decide) (by decide)⟩

/-- Claim C1 names the intended final-status policy, but the code never
reaches it: `ExecutionService.execute_task` line 56 calls
`AutomationService.launch_browser(None)`, which raises `AttributeError` at
`config.browser_type` (`automation_service.py:364`) on every call, before
the inner `try`, so the step loop and the final-status decision of
lines 102-114 are unreachable.  Evaluated at the failing input — the
two-step demo task under an environment in which every dispatched step
would succeed — the run dispatches zero steps and persists `failed` with
the exception note, not a status decided by step outcomes. -/
theorem execute_task_final_status_crash :
    (steps_for demo_db 1).length = 2 ∧
    (∀ i, env_all_ok.step_succeeds i = true) ∧
    (execute_task env_all_ok demo_db [] 1).attempted = 0 ∧
    (execute_task env_all_ok demo_db [] 1).succ = 0 ∧
    (execute_task env_all_ok demo_db [] 1).fail = 0 ∧
    ((get_task (execute_task env_all_ok demo_db [] 1).db 1).map Task.status) =
      some TaskStatus.failed ∧
    ((get_task (execute_task env_all_ok demo_db [] 1).db 1).map
      Task.error_message) =
      some (some ("任务执行异常: " ++ attribute_error_text)) := by
  refine ⟨by decide, fun i => rfl, by decide, by decide, by decide,
    by decide, by decide⟩

/-- Claim C8 describes the boundary cancellation re-check of
`execution_service.py` lines 76-79, which is dead code: the run raises at
the session launch before the loop, so no step boundary is ever reached.
Evaluated with a live-status oracle that reports `cancelled` from the
boundary before step 1 onwards (the claim's `k = 0`): the run dispatches
zero steps — not the steps `0..k` the claim describes — and ends `failed`
with the exception note, never observing the cancellation. -/
theorem execute_task_cancellation_unreachable :
    env_cancel_at_one.live_status 0 ≠ TaskStatus.cancelled ∧
    env_cancel_at_one.live_status 1 = TaskStatus.cancelled ∧
    (steps_for demo_db 1).length = 2 ∧
    (execute_task env_cancel_at_one demo_db [] 1).attempted = 0 ∧
    ((get_task (execute_task env_cancel_at_one demo_db [] 1).db 1).map
      Task.status) = some TaskStatus.failed ∧
    ((get_task (execute_task env_cancel_at_one demo_db [] 1).db 1).map
      Task.error_message) =
      some (some ("任务执行异常: " ++ attribute_error_text)) := by
  decide

/-- Claim C2 names the intended counter update, but the code never performs
it: every run with steps raises `AttributeError` at the session launch
(line 56) before the increment lines 97-100 execute — and those lines, were
they reached, would mutate only the detached `TaskResponse` copy returned
by `TaskService.get_task`, never the stored row.  Evaluated at the failing
input: after one run over the two-step demo task the persisted counters are
still 0 (`execution_count` did not gain 1), the task is `failed` via the
exception note, and no detached copy was even created. -/
theorem execute_task_counters_not_persisted :
    demo_task.execution_count = 0 ∧
    demo_task.success_count = 0 ∧
    demo_task.failure_count = 0 ∧
    ((get_task (execute_task env_all_ok demo_db [] 1).db 1).map
      Task.execution_count) = some 0 ∧
    ((get_task (execute_task env_all_ok demo_db [] 1).db 1).map
      Task.success_count) = some 0 ∧
    ((get_task (execute_task env_all_ok demo_db [] 1).db 1).map
      Task.failure_count) = some 0 ∧
    ((get_task (execute_task env_all_ok demo_db [] 1).db 1).map
      Task.status) = some TaskStatus.failed ∧
    (execute_task env_all_ok demo_db [] 1).response_copy = none := by
  decide

/-- Claim C6: a `wait` step sleeps for `parameters.wait_time` when that key
is present in the step's parameter map and for the step's `timeout` field
otherwise, in seconds — the sleep is the second entry of the effect trace,
right after the start log. -/
theorem execute_step_wait_duration (env : Browser) (step : AutomationStep)
    (h : step.action_type = ActionType.wait) :
    (execute_step env step).2[1]? =
      some (Effect.sleep ((spec_wait_duration step : Int) : Rat)) := by
  unfold execute_step dispatch
  rw [h]
  dsimp only [execute_wait]
  rw [wait_duration_agrees]
  simp

/-- Witness for C6 on a wait step carrying `wait_time = 2` in its parameter
map while its `timeout` field is 30: the executed sleep is 2 seconds. -/
theorem execute_step_wait_duration_witness :
    wait_param_step.action_type = ActionType.wait ∧
    spec_wait_duration wait_param_step = 2 ∧
    (execute_step ok_browser wait_param_step).2[1]? =
      some (Effect.sleep ((spec_wait_duration wait_param_step : Int) : Rat)) :=
  ⟨by decide, by decide,
    execute_step_wait_duration ok_browser wait_param_step (by decide)⟩

/-- Claim C7: when a step declares `wait_time > 0` (milliseconds) and its
action succeeds, the executor's last effect is a sleep of
`wait_time / 1000` seconds; a failing step never sleeps at all — the
post-step suspension exists on the success path only. -/
theorem execute_step_post_wait (env : Browser) (step : AutomationStep) :
    (∀ r effs, execute_step env step = (Except.ok r, effs) →
      0 < step.wait_time →
      effs.getLast? = some (Effect.sleep (((step.wait_time : Int) : Rat) / 1000))) ∧
    (∀ e effs, execute_step env step = (Except.error e, effs) →
      effs.filter is_sleep = []) := by
  constructor
  · intro r effs hEq hwt
    unfold execute_step at hEq
    rcases hd : dispatch env step with ⟨fst, snd⟩
    rw [hd] at hEq
    cases fst with
    | ok res =>
        dsimp only at hEq
        rw [if_pos hwt] at hEq
        injection hEq with h1 h2
        subst h2
        rw [List.getLast?_concat]
    | error e =>
        dsimp only at hEq
        injection hEq with h1 h2
        exact absurd h1 (by simp)
  · intro e effs hEq
    unfold execute_step at hEq
    rcases hd : dispatch env step with ⟨fst, snd⟩
    rw [hd] at hEq
    cases fst with
    | ok res =>
        dsimp only at hEq
        injection hEq with h1 h2
        exact absurd h1 (by simp)
    | error e2 =>
        dsimp only at hEq
        injection hEq with h1 h2
        subst h2
        have hsnd := dispatch_error_no_sleep env step e2 snd hd
        simp [List.filter_cons, List.filter_append, hsnd, is_sleep]

/-- Witness for C7 on a click step with `wait_time = 500` ms executed against
the all-ok browser: the run succeeds and its last effect is a half-second
sleep. -/
theorem execute_step_post_wait_witness :
    (0 : Int) < click_wait_step.wait_time ∧
    (execute_step ok_browser click_wait_step).2.getLast? =
      some (Effect.sleep (((click_wait_step.wait_time : Int) : Rat) / 1000)) :=
  ⟨by decide,
    (execute_step_post_wait ok_browser click_wait_step).1
      { action := "click", success := true }
      (execute_step ok_browser click_wait_step).2 rfl (by decide)⟩

/-- Claim C5, amended: for a `click` step, execution fails with
`MissingParameter` exactly when the target selector is absent, and with the
selector present the element is located — with the browser wrapper's default
30-second timeout, not the step's `timeout` field — and clicked; `hover` and
`select` steps have no dispatch branch and are rejected as
`UnsupportedAction` even when their selector is present. -/
theorem execute_step_click_dispatch (env : Browser) (step : AutomationStep) :
    (step.action_type = ActionType.click →
      ((pyTruthyStr step.target_selector = false →
        (execute_step env step).1 =
          Except.error (StepError.MissingParameter "点击操作需要指定目标选择器")) ∧
      (∀ s, step.target_selector = some s → (s == "") = false →
        env.find_element s 30 = Except.ok () →
        (execute_step env step).1 = Except.ok { action := "click", success := true } ∧
        Effect.locate s 30 ∈ (execute_step env step).2 ∧
        Effect.clickOn s ∈ (execute_step env step).2))) ∧
    (step.action_type = ActionType.hover →
      (execute_step env step).1 =
        Except.error (StepError.UnsupportedAction ActionType.hover)) ∧
    (step.action_type = ActionType.select →
      (execute_step env step).1 =
        Except.error (StepError.UnsupportedAction ActionType.select)) := by
  refine ⟨?_, ?_, ?_⟩
  · intro hclick
    constructor
    · intro hsel
      simp [execute_step, dispatch, hclick, execute_click, hsel]
    · intro s hsel hne hfe
      simp [execute_step, dispatch, hclick, execute_click, hsel, hne, hfe,
        pyTruthyStr]
  · intro hhover
    simp [execute_step, dispatch, hhover]
  · intro hselect
    simp [execute_step, dispatch, hselect]

/-- Witness for the amended C5: on the all-ok browser, the demo click step
(selector `"#go"`) succeeds, locating with the default 30-second timeout and
clicking the element. -/
theorem execute_step_click_dispatch_witness :
    click_step.action_type = ActionType.click ∧
    ((execute_step ok_browser click_step).1 =
        Except.ok { action := "click", success := true } ∧
      Effect.locate "#go" 30 ∈ (execute_step ok_browser click_step).2 ∧
      Effect.clickOn "#go" ∈ (execute_step ok_browser click_step).2) :=
  ⟨by decide,
    ((execute_step_click_dispatch ok_browser click_step).1 (by decide)).2
      "#go" (by decide) (by decide) (by decide)⟩

/-- Counterexample to C5 as stated: a `hover` step whose selector is present
is rejected as `UnsupportedAction` instead of performing the action, and the
click step's element lookup uses the default 30-second timeout although the
step's own `timeout` field is 5. -/
theorem execute_step_click_dispatch_cex :
    hover_step.target_selector = some "#menu" ∧
    (execute_step ok_browser hover_step).1 =
      Except.error (StepError.UnsupportedAction ActionType.hover) ∧
    click_step.timeout = 5 ∧
    Effect.locate "#go" 30 ∈ (execute_step ok_browser click_step).2 ∧
    Effect.locate "#go" 5 ∉ (execute_step ok_browser click_step).2 := by
  decide

end PyAutoApi
